import Mathlib

/-!
Verification of the Asset Cache & Sequential Distribution Engine of the
SubliminalGenBackend repository (gemini-api/services/music_service.py),
as a shallow embedding in Lean 4.

Conventions of the embedding:
* Python strings are Lean `String`s; comparisons (`sorted`, the SQL
  `order("uuid")` / `gt("uuid", _)` filters) are code-point lexicographic,
  implemented below on `List Char` so that every definition reduces in the
  kernel.
* Python `sorted` is a stable sort; we use a stable insertion sort (for a
  total preorder the result of any stable sort is the same list).
* Machine-level effects (Supabase queries, Lyria generation, storage
  upload) are modelled by explicit state passing over a `DB` value plus an
  `Env` record of outcomes of the external calls made during one request
  (success / raised-exception, the freshly minted uuid, the hash function).
* `hashlib.md5(...).hexdigest()` is an external library call; it is carried
  as an uninterpreted function parameter `md5hex : String → String`
  applied to the exact serialized payload the source hashes.
-/

/-- Code-point comparison of characters, as Python compares `str` elements. -/
def charLtNat (a b : Char) : Bool := a.toNat < b.toNat

/-- Lexicographic code-point order on lists of characters (non-strict). -/
def listLeChar : List Char → List Char → Bool
  | [], _ => true
  | _ :: _, [] => false
  | a :: as, b :: bs =>
    if a.toNat < b.toNat then true
    else if b.toNat < a.toNat then false
    else listLeChar as bs

/-- Lexicographic code-point order on strings (non-strict), the order used
by Python `sorted` on `str` and by the store's ascending `order("uuid")`. -/
def strLe (a b : String) : Bool := listLeChar a.data b.data

/-- Strict lexicographic code-point order on strings, the order behind the
store's `gt("uuid", last_uuid)` range filter. -/
def strLt (a b : String) : Bool := strLe a b && a != b

theorem listLeChar_total : ∀ a b : List Char, (listLeChar a b || listLeChar b a) = true := by
  intro a
  induction a with
  | nil => intro b; simp [listLeChar]
  | cons x xs ih =>
    intro b
    cases b with
    | nil => simp [listLeChar]
    | cons y ys =>
      simp only [listLeChar]
      rcases Nat.lt_trichotomy x.toNat y.toNat with h | h | h
      · simp [h]
      · have h1 : ¬ x.toNat < y.toNat := by omega
        have h2 : ¬ y.toNat < x.toNat := by omega
        simp only [if_neg h1, if_neg h2]
        exact ih ys
      · have h1 : ¬ x.toNat < y.toNat := by omega
        simp [h, h1]

theorem listLeChar_trans : ∀ a b c : List Char,
    listLeChar a b = true → listLeChar b c = true → listLeChar a c = true := by
  intro a
  induction a with
  | nil => intro b c _ _; simp [listLeChar]
  | cons x xs ih =>
    intro b c hab hbc
    cases b with
    | nil => simp [listLeChar] at hab
    | cons y ys =>
      cases c with
      | nil => simp [listLeChar] at hbc
      | cons z zs =>
        simp only [listLeChar] at hab hbc ⊢
        by_cases hxy : x.toNat < y.toNat
        · by_cases hyz : y.toNat < z.toNat
          · have hxz : x.toNat < z.toNat := by omega
            simp [hxz]
          · by_cases hzy : z.toNat < y.toNat
            · simp [hyz, hzy] at hbc
            · have hxz : x.toNat < z.toNat := by omega
              simp [hxz]
        · by_cases hyx : y.toNat < x.toNat
          · simp [hxy, hyx] at hab
          · simp only [if_neg hxy, if_neg hyx] at hab
            by_cases hyz : y.toNat < z.toNat
            · have hxz : x.toNat < z.toNat := by omega
              simp [hxz]
            · by_cases hzy : z.toNat < y.toNat
              · simp [hyz, hzy] at hbc
              · simp only [if_neg hyz, if_neg hzy] at hbc
                have h1 : ¬ x.toNat < z.toNat := by omega
                have h2 : ¬ z.toNat < x.toNat := by omega
                simp only [if_neg h1, if_neg h2]
                exact ih ys zs hab hbc

theorem strLe_total (a b : String) : (strLe a b || strLe b a) = true :=
  listLeChar_total a.data b.data

theorem strLe_trans {a b c : String} (h1 : strLe a b = true) (h2 : strLe b c = true) :
    strLe a c = true :=
  listLeChar_trans a.data b.data c.data h1 h2

/-- Stable insertion of one element into a sorted list: the new element is
placed before the first element it is `le`-below (earlier elements of the
original list stay in front of equal later ones, as in Python `sorted`). -/
def insertLe {α : Type} (le : α → α → Bool) (a : α) : List α → List α
  | [] => [a]
  | b :: bs => if le a b then a :: b :: bs else b :: insertLe le a bs

/-- Stable sort by the boolean relation `le`; for a total preorder this
computes the same list as Python `sorted` and the store's ascending order. -/
def sortLe {α : Type} (le : α → α → Bool) : List α → List α
  | [] => []
  | a :: as => insertLe le a (sortLe le as)

theorem insertLe_perm {α : Type} (le : α → α → Bool) (a : α) :
    ∀ l : List α, List.Perm (insertLe le a l) (a :: l) := by
  intro l
  induction l with
  | nil => simp [insertLe]
  | cons b bs ih =>
    simp only [insertLe]
    by_cases h : le a b = true
    · simp [h]
    · simp only [h, if_false]
      exact (List.Perm.cons b ih).trans (List.Perm.swap a b bs)

theorem sortLe_perm {α : Type} (le : α → α → Bool) :
    ∀ l : List α, List.Perm (sortLe le l) l := by
  intro l
  induction l with
  | nil => simp [sortLe]
  | cons a as ih =>
    simp only [sortLe]
    exact (insertLe_perm le a _).trans (List.Perm.cons a ih)

theorem insertLe_pairwise {α : Type} (le : α → α → Bool)
    (htot : ∀ x y : α, (le x y || le y x) = true)
    (htrans : ∀ x y z : α, le x y = true → le y z = true → le x z = true)
    (a : α) : ∀ l : List α, List.Pairwise (fun x y => le x y = true) l →
      List.Pairwise (fun x y => le x y = true) (insertLe le a l) := by
  intro l
  induction l with
  | nil => intro _; simp [insertLe]
  | cons b bs ih =>
    intro hp
    rcases List.pairwise_cons.mp hp with ⟨hb, hbs⟩
    simp only [insertLe]
    by_cases h : le a b = true
    · simp only [h, if_true]
      refine List.pairwise_cons.mpr ⟨?_, hp⟩
      intro y hy
      rcases List.mem_cons.mp hy with rfl | hy
      · exact h
      · exact htrans a b y h (hb y hy)
    · simp only [h, if_false]
      have hba : le b a = true := by
        have := htot a b
        simp [h] at this
        exact this
      refine List.pairwise_cons.mpr ⟨?_, ih hbs⟩
      intro y hy
      have hy' := (insertLe_perm le a bs).mem_iff.mp hy
      rcases List.mem_cons.mp hy' with rfl | hy'
      · exact hba
      · exact hb y hy'

theorem sortLe_pairwise {α : Type} (le : α → α → Bool)
    (htot : ∀ x y : α, (le x y || le y x) = true)
    (htrans : ∀ x y z : α, le x y = true → le y z = true → le x z = true) :
    ∀ l : List α, List.Pairwise (fun x y => le x y = true) (sortLe le l) := by
  intro l
  induction l with
  | nil => simp [sortLe]
  | cons a as ih => exact insertLe_pairwise le htot htrans a _ ih

/-- Minimality of a successful `find?` on a sorted list: the hit satisfies
the predicate and is `le`-below every member of the list that satisfies it. -/
theorem find_sorted_min {α : Type} {le : α → α → Bool} {p : α → Bool}
    (hrefl : ∀ x : α, le x x = true) :
    ∀ {l : List α}, List.Pairwise (fun x y => le x y = true) l →
      ∀ {x : α}, l.find? p = some x →
        p x = true ∧ x ∈ l ∧ ∀ y ∈ l, p y = true → le x y = true := by
  intro l
  induction l with
  | nil => intro _ x hx; simp [List.find?] at hx
  | cons a as ih =>
    intro hp x hx
    rcases List.pairwise_cons.mp hp with ⟨ha, has⟩
    rw [List.find?_cons] at hx
    by_cases hpa : p a = true
    · simp only [hpa, if_true, Option.some.injEq] at hx
      refine ⟨hx ▸ hpa, ?_, ?_⟩
      · rw [← hx]; exact List.mem_cons_self a as
      · intro y hy _
        rcases List.mem_cons.mp hy with h2 | hy2
        · rw [h2, ← hx]; exact hrefl a
        · rw [← hx]; exact ha y hy2
    · simp only [hpa, if_false, Bool.false_eq_true] at hx
      rcases ih has hx with ⟨hpx, hmem, hmin⟩
      refine ⟨hpx, List.mem_cons_of_mem a hmem, ?_⟩
      intro y hy hpy
      rcases List.mem_cons.mp hy with rfl | hy
      · exact absurd hpy hpa
      · exact hmin y hy hpy

-- -----------------------------------------
-- Helpers of music_service.py
-- -----------------------------------------

/-- Whitespace recognizer of Python `str.strip()` restricted to its ASCII
whitespace set (space, tab, newline, carriage return, vertical tab,
form feed); the repository only strips ASCII tag/attribute strings. -/
def pyIsSpace (c : Char) : Bool :=
  c.toNat = 32 || c.toNat = 9 || c.toNat = 10 || c.toNat = 13 || c.toNat = 11 || c.toNat = 12

/-- Embedding of Python `s.strip()`: drop leading and trailing whitespace. -/
def pyStrip (s : String) : String :=
  ⟨((s.data.dropWhile pyIsSpace).reverse.dropWhile pyIsSpace).reverse⟩

/-- Embedding of Python `s.lower()` on the ASCII range (the source applies
it to ASCII tags and attribute labels). -/
def pyCharLower (c : Char) : Char :=
  if 65 ≤ c.toNat && c.toNat ≤ 90 then Char.ofNat (c.toNat + 32) else c

/-- Embedding of Python `s.lower()`. -/
def pyLower (s : String) : String := ⟨s.data.map pyCharLower⟩

/-- Embedding of `normalize_list` (music_service.py lines 17-22): on a
missing or empty list return `[]`; otherwise strip, lowercase, drop entries
that are empty after stripping, and sort ascending. -/
def normalize_list (values : List String) : List String :=
  if values.isEmpty then []
  else
    sortLe strLe ((values.filter (fun v => pyStrip v != "")).map (fun v => pyLower (pyStrip v)))

/-- Embedding of `duration_bucket` (music_service.py lines 24-29). -/
def duration_bucket (seconds : Int) : String :=
  if seconds < 60 then "short"
  else if seconds ≤ 180 then "medium"
  else "long"

/-- Single-quote character, used by Python `repr` of strings. -/
def squo : String := String.singleton (Char.ofNat 39)

/-- Double-quote character. -/
def dquo : String := "\""

/-- Boolean test that `pat` starts the character list `l`. -/
def listStartsWith : List Char → List Char → Bool
  | [], _ => true
  | _ :: _, [] => false
  | a :: as, b :: bs => a == b && listStartsWith as bs

/-- Boolean substring test on character lists. -/
def listContainsSub (pat : List Char) : List Char → Bool
  | [] => pat.isEmpty
  | c :: rest => listStartsWith pat (c :: rest) || listContainsSub pat rest

/-- Embedding of the Python `in` substring test used by the except handler. -/
def strContains (s pat : String) : Bool := listContainsSub pat.data s.data

/-- Python `repr` of a string as used inside `str(payload)`: the value is
wrapped in single quotes, or in double quotes when it contains a single
quote and no double quote (escaping of rarer characters is abstracted; no
claim depends on it, only on `repr` being a function of the string). -/
def pyReprStr (s : String) : String :=
  if strContains s squo && !(strContains s dquo) then dquo ++ s ++ dquo else squo ++ s ++ squo

/-- Comma-space joined concatenation of rendered items. -/
def joinSep (sep : String) : List String → String
  | [] => ""
  | [x] => x
  | x :: y :: rest => x ++ sep ++ joinSep sep (y :: rest)

/-- Python `str` of a list of strings, as it appears inside `str(payload)`. -/
def pyReprList (l : List String) : String :=
  "[" ++ joinSep ", " (l.map pyReprStr) ++ "]"

/-- Serialization `str(payload)` of the payload dict built by
`build_cache_key` (music_service.py lines 43-50), with the keys in the
dict's insertion order. -/
def payloadStr (music_type mood instruments : List String) (duration_seconds : Int) : String :=
  "\x7b" ++ pyReprStr "music_type" ++ ": " ++ pyReprList (normalize_list music_type) ++
  ", " ++ pyReprStr "mood" ++ ": " ++ pyReprList (normalize_list mood) ++
  ", " ++ pyReprStr "instruments" ++ ": " ++ pyReprList (normalize_list instruments) ++
  ", " ++ pyReprStr "duration" ++ ": " ++ pyReprStr (duration_bucket duration_seconds) ++ "\x7d"

/-- Embedding of `build_cache_key` (music_service.py lines 31-51): the md5
hex digest of the serialized normalized payload. The digest `md5hex` is an
external library function, carried as a parameter; the tag, the prompt and
the vip flag are not inputs, exactly as in the source. -/
def build_cache_key (md5hex : String → String)
    (music_type mood instruments : List String) (duration_seconds : Int) : String :=
  md5hex (payloadStr music_type mood instruments duration_seconds)

/-- Embedding of `normalize_tag` (music_service.py lines 53-54): an empty
(falsy) tag becomes "meditation", otherwise strip and lowercase. -/
def normalize_tag (tag : String) : String :=
  if tag = "" then "meditation" else pyLower (pyStrip tag)

-- -----------------------------------------
-- Data model of the store and of one request
-- -----------------------------------------

/-- Row of the ledger table "music" (the columns this service writes). -/
structure Track where
  uuid : String
  title : String
  tag : String
  supabase_url : String
  cache_key : String
  deriving DecidableEq

/-- State of the Relational Store: the "music" ledger and the "music_users"
cursor table as (user_id, last_received_uuid) pairs; the informational
last_received_timestamp column is not modelled. -/
structure DB where
  music : List Track
  music_users : List (String × String)
  deriving DecidableEq

/-- Request body MusicGenerateRequest (models/requests.py lines 4-14);
frequencies and the legacy style field play no role in the cached flow. -/
structure Request where
  prompt : String
  tag : String
  duration : Int
  is_vip : Bool
  music_type : Option (List String)
  instruments : Option (List String)
  mood : Option (List String)
  deriving DecidableEq

/-- Python `xs or []` on an optional list. -/
def pyOrEmpty : Option (List String) → List String
  | none => []
  | some l => l

/-- Outcomes of the external calls a single request makes: each `Ok` flag
is false when the corresponding Supabase call raises, `genResult` is the
Lyria call's return value or raised message, `uploadErr` the storage
upload's error field, `newUuid` the timestamp-random identifier minted for
a generated track, `publicUrl` the storage URL map, `md5hex` the digest. -/
structure Env where
  md5hex : String → String
  publicUrl : String → String
  userLookupOk : Bool
  cacheLookupOk : Bool
  seqLookupOk : Bool
  updateOk : Bool
  insertOk : Bool
  insertErrMsg : String
  genResult : Except String (List Nat)
  uploadErr : Option String
  newUuid : String

/-- Shape of the dict built by `_response` (music_service.py lines 255-261). -/
structure MusicResponse where
  uuid : String
  title : String
  url : String
  cached : Bool
  deriving DecidableEq

instance {ε α : Type} [DecidableEq ε] [DecidableEq α] : DecidableEq (Except ε α)
  | .error a, .error b => decidable_of_iff (a = b) (by simp)
  | .error _, .ok _ => isFalse (by simp)
  | .ok _, .error _ => isFalse (by simp)
  | .ok a, .ok b => decidable_of_iff (a = b) (by simp)

/-- Observable outcome of one entry-point call: the returned dict or the
raised message, the store state afterwards, the Lyria invocations as
(prompt, tag, duration) triples and the storage uploads as (path, bytes). -/
structure ServeOutcome where
  result : Except String MusicResponse
  db : DB
  genCalls : List (String × String × Int)
  uploads : List (String × List Nat)
  deriving DecidableEq

/-- Ordering used by the store's ascending `order("uuid")`. -/
def trackLe (a b : Track) : Bool := strLe a.uuid b.uuid

/-- Lookup of the user's cursor row in "music_users" (first matching row,
as `user_resp.data[0]`). -/
def lookupUser (db : DB) (user_id : String) : Option String :=
  (db.music_users.find? (fun r => r.1 == user_id)).map (fun r => r.2)

/-- Upsert keyed by user_id: replace the existing row or append a new one. -/
def upsertRows : List (String × String) → String → String → List (String × String)
  | [], uid, u => [(uid, u)]
  | r :: rs, uid, u => if r.1 = uid then (uid, u) :: rs else r :: upsertRows rs uid u

/-- Embedding of `_update_user` (music_service.py lines 242-250): upsert of
(user_id, last_received_uuid); a raised exception is caught and only
logged, leaving the store unchanged and the caller none the wiser. -/
def update_user (env : Env) (db : DB) (user_id uuid : String) : DB :=
  if env.updateOk then { db with music_users := upsertRows db.music_users user_id uuid }
  else db

/-- Embedding of `_enhance_prompt` (music_service.py lines 190-208). -/
def enhance_prompt (prompt : String) (music_type mood instruments : List String) : String :=
  joinSep ", " ([prompt] ++
    (if music_type.isEmpty then [] else ["style: " ++ joinSep ", " music_type]) ++
    (if mood.isEmpty then [] else ["mood: " ++ joinSep ", " mood]) ++
    (if instruments.isEmpty then [] else ["instruments: " ++ joinSep ", " instruments]))

/-- Uppercase of an ASCII letter, for Python `str.title()`. -/
def pyCharUpper (c : Char) : Char :=
  if 97 ≤ c.toNat && c.toNat ≤ 122 then Char.ofNat (c.toNat - 32) else c

/-- ASCII letter test, for Python `str.title()`. -/
def pyIsAlpha (c : Char) : Bool :=
  (65 ≤ c.toNat && c.toNat ≤ 90) || (97 ≤ c.toNat && c.toNat ≤ 122)

/-- Worker of `pyTitle`; the flag records whether the previous character
was a letter. -/
def pyTitleAux : Bool → List Char → List Char
  | _, [] => []
  | prevAlpha, c :: cs =>
    (if pyIsAlpha c then (if prevAlpha then pyCharLower c else pyCharUpper c) else c)
      :: pyTitleAux (pyIsAlpha c) cs

/-- Embedding of Python `s.title()` on ASCII, used for the generated
track's display title. -/
def pyTitle (s : String) : String := ⟨pyTitleAux false s.data⟩

/-- Embedding of `_response` (music_service.py lines 255-261). -/
def response (t : Track) (cached : Bool) : MusicResponse :=
  { uuid := t.uuid, title := t.title, url := t.supabase_url, cached := cached }

/-- Cache key the entry point computes for a request (music_service.py
lines 76-81): each absent attribute list defaults to `[]`. -/
def requestFingerprint (md5hex : String → String) (req : Request) : String :=
  build_cache_key md5hex (pyOrEmpty req.music_type) (pyOrEmpty req.mood)
    (pyOrEmpty req.instruments) req.duration

/-- Result set of the exact-fingerprint query (music_service.py line 96):
rows of "music" with the request's cache_key and tag, ascending by uuid; an
unreachable store yields the caught-exception value `[]` (lines 98-100). -/
def cachedTracks (env : Env) (db : DB) (ck tg : String) : List Track :=
  if env.cacheLookupOk then
    sortLe trackLe (db.music.filter (fun t => t.cache_key == ck && t.tag == tg))
  else []

/-- Range condition of the sequential query: `gt("uuid", last_uuid)` is
only added when the user has a cursor (music_service.py lines 223-224). -/
def afterCursor : Option String → Track → Bool
  | none, _ => true
  | some u, t => strLt u t.uuid

/-- Embedding of `_get_next_by_tag` (music_service.py lines 213-237): the
first track of the tag ordered ascending by uuid, past the cursor when one
exists, skipping the excluded exact-phase uuids; a hit also advances the
cursor. A raised store exception is caught, yielding no track (235-237). -/
def get_next_by_tag (env : Env) (db : DB) (user_id tg : String)
    (exclude_uuids : List String) (last_uuid : Option String) : Option Track × DB :=
  if env.seqLookupOk then
    let tracks :=
      sortLe trackLe ((db.music.filter (fun t => t.tag == tg)).filter (afterCursor last_uuid))
    match tracks.find? (fun t => !(exclude_uuids.contains t.uuid)) with
    | some t => (some t, update_user env db user_id t.uuid)
    | none => (none, db)
  else (none, db)

/-- Embedding of `_generate_new` (music_service.py lines 133-185): mint the
uuid, build the enhanced prompt, call Lyria, upload the bytes, insert the
ledger row, advance the cursor; any failure inside the try block raises
"Music generation error: ..." with nothing further executed. -/
def generate_new (env : Env) (db : DB) (user_id prompt tg : String) (duration : Int)
    (music_type mood instruments : List String) (ck : String) : ServeOutcome :=
  let uuid := env.newUuid
  let enhanced := enhance_prompt prompt music_type mood instruments
  match env.genResult with
  | .error msg =>
    { result := .error ("Music generation error: " ++ msg), db := db,
      genCalls := [(enhanced, tg, duration)], uploads := [] }
  | .ok audio =>
    let file_path := tg ++ "/" ++ uuid ++ ".wav"
    match env.uploadErr with
    | some uerr =>
      { result := .error ("Music generation error: Upload failed: " ++ uerr), db := db,
        genCalls := [(enhanced, tg, duration)], uploads := [(file_path, audio)] }
    | none =>
      let public_url := env.publicUrl file_path
      let track : Track :=
        { uuid := uuid, title := pyTitle tg ++ " Track", tag := tg,
          supabase_url := public_url, cache_key := ck }
      if env.insertOk then
        { result := .ok (response track false),
          db := update_user env { db with music := db.music ++ [track] } user_id uuid,
          genCalls := [(enhanced, tg, duration)], uploads := [(file_path, audio)] }
      else
        { result := .error ("Music generation error: " ++ env.insertErrMsg), db := db,
          genCalls := [(enhanced, tg, duration)], uploads := [(file_path, audio)] }

/-- Embedding of the first (shadowed) `get_music_with_enhanced_prompt`
definition (music_service.py lines 69-128), the documented two-phase flow:
exact-fingerprint phase over `cachedTracks`, then the sequential fallback
via `_get_next_by_tag` with the exact-phase uuids excluded, then
generation. A failed user lookup is caught, leaving the cursor empty
(lines 90-92). -/
def get_music_with_enhanced_prompt (env : Env) (db : DB) (user_id : String)
    (req : Request) : ServeOutcome :=
  let tg := normalize_tag req.tag
  let ck := requestFingerprint env.md5hex req
  let last : Option String := if env.userLookupOk then lookupUser db user_id else none
  let cts := cachedTracks env db ck tg
  match cts.find? (fun t => some t.uuid != last) with
  | some t =>
    { result := .ok (response t true), db := update_user env db user_id t.uuid,
      genCalls := [], uploads := [] }
  | none =>
    match get_next_by_tag env db user_id tg (cts.map (fun t => t.uuid)) last with
    | (some t, db2) =>
      { result := .ok (response t true), db := db2, genCalls := [], uploads := [] }
    | (none, db2) =>
      generate_new env db2 user_id req.prompt tg req.duration (pyOrEmpty req.music_type)
        (pyOrEmpty req.mood) (pyOrEmpty req.instruments) ck

-- -----------------------------------------
-- Class-body binding of MusicService
-- -----------------------------------------

/-- Names bound by `def` in the class body of MusicService, in source order
(music_service.py lines 57-546). In a Python class body the statements run
sequentially into one namespace, so a later `def` of the same name rebinds
it and the earlier function is unreachable through the class. -/
def musicServiceClassBody : List String :=
  ["__init__",
   "get_music_with_enhanced_prompt",
   "_generate_new",
   "_enhance_prompt",
   "_get_next_by_tag",
   "_update_user",
   "_response",
   "get_music_for_user",
   "get_music_with_enhanced_prompt",
   "_get_next_track_in_tag_sequence",
   "_generate_enhanced_track",
   "get_music_for_user",
   "_generate_new_track",
   "_update_user_record"]

/-- Index in the class body a name resolves to: the last occurrence wins,
as for sequential assignment into the class namespace. -/
def lastBindingIdx (l : List String) (x : String) : Option Nat :=
  ((l.enum.filter (fun p => p.2 == x)).map (fun p => p.1)).getLast?

/-- Attribute-existence test on instances of the class (no instance
attributes of these names are ever assigned, so resolution falls back to
the class namespace). -/
def methodDefined (name : String) : Bool := musicServiceClassBody.contains name

/-- Text of the AttributeError Python raises at a `self.<name>(...)` call
when the class defines no such attribute. -/
def attributeErrorMsg (name : String) : String :=
  squo ++ "MusicService" ++ squo ++ " object has no attribute " ++ squo ++ name ++ squo

/-- Embedding of the second, shadowing `get_music_with_enhanced_prompt`
definition (music_service.py lines 279-329). Its first statement inside the
try block is `cache_key = self.create_cache_key(request)`; when the class
defines no `create_cache_key`, Python raises AttributeError there, before
any store access, the handler's two substring tests fail on that message,
and the call re-raises "Music service error: ...". The two branches
guarded by conditions that are false for this class body (an existing
`create_cache_key`; a message containing one of the fallback markers)
carry a placeholder value and are proved unreachable below. -/
def get_music_v2 (db : DB) (_user_id : String) (_req : Request) : ServeOutcome :=
  if methodDefined "create_cache_key" then
    { result := .error "", db := db, genCalls := [], uploads := [] }
  else
    let msg := attributeErrorMsg "create_cache_key"
    if strContains msg "need to generate new" || strContains msg "No more tracks" then
      { result := .error "", db := db, genCalls := [], uploads := [] }
    else
      { result := .error ("Music service error: " ++ msg), db := db,
        genCalls := [], uploads := [] }

-- -----------------------------------------
-- Supporting lemmas
-- -----------------------------------------

theorem listLeChar_refl : ∀ l : List Char, listLeChar l l = true := by
  intro l
  induction l with
  | nil => simp [listLeChar]
  | cons c cs ih => simp [listLeChar, ih]

theorem trackLe_refl (t : Track) : trackLe t t = true := listLeChar_refl t.uuid.data

theorem trackLe_total (a b : Track) : (trackLe a b || trackLe b a) = true :=
  strLe_total a.uuid b.uuid

theorem trackLe_trans (a b c : Track) (h1 : trackLe a b = true) (h2 : trackLe b c = true) :
    trackLe a c = true :=
  strLe_trans h1 h2

/-- Membership in the exact-fingerprint result set is membership in the
ledger with matching cache_key and tag, when the query succeeds. -/
theorem mem_cachedTracks {env : Env} {db : DB} {ck tg : String}
    (hC : env.cacheLookupOk = true) (t : Track) :
    t ∈ cachedTracks env db ck tg ↔ t ∈ db.music ∧ t.cache_key = ck ∧ t.tag = tg := by
  unfold cachedTracks
  rw [hC]
  simp only [if_true]
  rw [(sortLe_perm trackLe _).mem_iff]
  simp [List.mem_filter, Bool.and_eq_true, beq_iff_eq, and_assoc]

theorem pairwise_cachedTracks (env : Env) (db : DB) (ck tg : String) :
    List.Pairwise (fun a b => trackLe a b = true) (cachedTracks env db ck tg) := by
  unfold cachedTracks
  by_cases hC : env.cacheLookupOk = true
  · rw [hC]
    simp only [if_true]
    exact sortLe_pairwise trackLe trackLe_total trackLe_trans _
  · simp only [Bool.not_eq_true] at hC
    rw [hC]
    simp

theorem find_upsertRows : ∀ (rows : List (String × String)) (uid u : String),
    (upsertRows rows uid u).find? (fun r => r.1 == uid) = some (uid, u) := by
  intro rows
  induction rows with
  | nil => intro uid u; simp [upsertRows, List.find?]
  | cons r rs ih =>
    intro uid u
    simp only [upsertRows]
    by_cases h : r.1 = uid
    · simp [h, List.find?]
    · rw [if_neg h, List.find?_cons]
      have hb : (r.1 == uid) = false := by simp [h]
      simp only [hb, if_false, Bool.false_eq_true]
      exact ih uid u

/-- A successful cursor upsert makes the user's cursor the new uuid. -/
theorem lookupUser_update_user {env : Env} (hW : env.updateOk = true)
    (db : DB) (uid u : String) :
    lookupUser (update_user env db uid u) uid = some u := by
  unfold update_user lookupUser
  rw [hW]
  simp only [if_true]
  rw [find_upsertRows]
  rfl

-- -----------------------------------------
-- Claims about the Fingerprint Builder
-- -----------------------------------------

/-- C7: `build_cache_key` is invariant under any change of the three
attribute lists that preserves their normalization (trim, lowercase, drop
empties, sort ascending) and any change of duration within one bucket, for
every digest function; the spec's instance lists ["Jazz","Calm"] at 90
versus ["calm","jazz"] at 95 is the witness below. -/
theorem c7_fingerprint_invariance (md5hex : String → String)
    (mt1 mood1 ins1 : List String) (d1 : Int)
    (mt2 mood2 ins2 : List String) (d2 : Int)
    (hmt : normalize_list mt1 = normalize_list mt2)
    (hmood : normalize_list mood1 = normalize_list mood2)
    (hins : normalize_list ins1 = normalize_list ins2)
    (hd : duration_bucket d1 = duration_bucket d2) :
    build_cache_key md5hex mt1 mood1 ins1 d1 = build_cache_key md5hex mt2 mood2 ins2 d2 := by
  unfold build_cache_key payloadStr
  rw [hmt, hmood, hins, hd]

/-- C7 witness: the spec's concrete instance, at a concrete digest. -/
theorem c7_witness :
    build_cache_key (fun s => s) ["Jazz", "Calm"] [] [] 90
      = build_cache_key (fun s => s) ["calm", "jazz"] [] [] 95 :=
  c7_fingerprint_invariance (fun s => s) ["Jazz", "Calm"] [] [] 90 ["calm", "jazz"] [] [] 95
    (by decide) (by decide) (by decide) (by decide)

/-- C8: `duration_bucket` sends seconds strictly below 60 to "short",
60 to 180 inclusive to "medium", strictly above 180 to "long"; and in
particular 59, 60, 180, 181 land as the spec says. -/
theorem c8_duration_bucket_bands (s : Int) :
    (s < 60 → duration_bucket s = "short") ∧
    (60 ≤ s ∧ s ≤ 180 → duration_bucket s = "medium") ∧
    (180 < s → duration_bucket s = "long") ∧
    duration_bucket 59 = "short" ∧ duration_bucket 60 = "medium" ∧
    duration_bucket 180 = "medium" ∧ duration_bucket 181 = "long" := by
  refine ⟨?_, ?_, ?_, by decide, by decide, by decide, by decide⟩
  · intro h
    simp [duration_bucket, h]
  · intro h
    have h1 : ¬ s < 60 := by omega
    simp [duration_bucket, h1, h.2]
  · intro h
    have h1 : ¬ s < 60 := by omega
    have h2 : ¬ s ≤ 180 := by omega
    simp [duration_bucket, h1, h2]

/-- C8 witness: the band implications applied at 59, 150 and 181. -/
theorem c8_witness :
    duration_bucket 59 = "short" ∧ duration_bucket 150 = "medium" ∧
    duration_bucket 181 = "long" :=
  ⟨(c8_duration_bucket_bands 59).1 (by decide),
   (c8_duration_bucket_bands 150).2.1 (by decide),
   (c8_duration_bucket_bands 181).2.2.1 (by decide)⟩

/-- C9: the fingerprint the entry point computes for a request depends
only on the three structured attribute lists and the duration bucket: two
requests that agree on those may differ arbitrarily in prompt, tag and
is_vip and still receive the same cache key, for every digest function. -/
theorem c9_fingerprint_noninterference (md5hex : String → String) (r1 r2 : Request)
    (hmt : r1.music_type = r2.music_type) (hmood : r1.mood = r2.mood)
    (hins : r1.instruments = r2.instruments)
    (hd : duration_bucket r1.duration = duration_bucket r2.duration) :
    requestFingerprint md5hex r1 = requestFingerprint md5hex r2 := by
  unfold requestFingerprint build_cache_key payloadStr
  rw [hmt, hmood, hins, hd]

/-- C9 witness: two requests equal in attributes and bucket but different
in prompt, tag and is_vip share the fingerprint. -/
theorem c9_witness :
    requestFingerprint (fun s => s)
      { prompt := "rainy evening", tag := "meditation", duration := 90, is_vip := false,
        music_type := some ["jazz"], instruments := none, mood := some ["calm"] }
    = requestFingerprint (fun s => s)
      { prompt := "sunrise hike", tag := "focus", duration := 150, is_vip := true,
        music_type := some ["jazz"], instruments := none, mood := some ["calm"] } :=
  c9_fingerprint_noninterference (fun s => s) _ _ rfl rfl rfl (by decide)

/-- C10: the MusicService class body binds `get_music_with_enhanced_prompt`
at indices 1 and 8 and the later definition (source lines 279-329) is the
one the HTTP layer's `music_service.get_music_with_enhanced_prompt` call
resolves to; `create_cache_key`, `enhance_prompt` and `generate_uuid` are
bound nowhere in the class, so on every input the effective entry point
raises "Music service error: 'MusicService' object has no attribute
'create_cache_key'" at its first statement, leaving the store untouched,
with no Lyria call and no upload — the shadowed two-phase flow at lines
69-128 is unreachable through the class. -/
theorem c10_shadowed_entry_point :
    lastBindingIdx musicServiceClassBody "get_music_with_enhanced_prompt" = some 8 ∧
    musicServiceClassBody.get? 1 = some "get_music_with_enhanced_prompt" ∧
    musicServiceClassBody.get? 8 = some "get_music_with_enhanced_prompt" ∧
    methodDefined "create_cache_key" = false ∧
    methodDefined "enhance_prompt" = false ∧
    methodDefined "generate_uuid" = false ∧
    ∀ (db : DB) (user_id : String) (req : Request),
      get_music_v2 db user_id req =
        { result := .error ("Music service error: " ++ attributeErrorMsg "create_cache_key"),
          db := db, genCalls := [], uploads := [] } := by
  refine ⟨by decide, by decide, by decide, by decide, by decide, by decide, ?_⟩
  intro db uid req
  have h1 : methodDefined "create_cache_key" = false := by decide
  have h2 : (strContains (attributeErrorMsg "create_cache_key") "need to generate new"
      || strContains (attributeErrorMsg "create_cache_key") "No more tracks") = false := by
    decide
  simp [get_music_v2, h1, h2]

-- -----------------------------------------
-- Claims about the two-phase selection flow
-- -----------------------------------------

/-- C1: whenever the ledger holds at least one asset with the request's
fingerprint and category whose uuid differs from the user's cursor (or the
user has no cursor row), the flow serves the first such asset in ascending
uuid order, advances the user's cursor to its uuid, marks the response
cached, and makes no Lyria call and no upload. -/
theorem c1_exact_phase_serves_first_unseen
    (env : Env) (db : DB) (user_id : String) (req : Request)
    (hU : env.userLookupOk = true) (hC : env.cacheLookupOk = true)
    (hW : env.updateOk = true)
    (hex : ∃ t ∈ db.music,
      t.cache_key = requestFingerprint env.md5hex req ∧
      t.tag = normalize_tag req.tag ∧
      some t.uuid ≠ lookupUser db user_id) :
    ∃ t ∈ db.music,
      t.cache_key = requestFingerprint env.md5hex req ∧
      t.tag = normalize_tag req.tag ∧
      some t.uuid ≠ lookupUser db user_id ∧
      (∀ t2 ∈ db.music,
        t2.cache_key = requestFingerprint env.md5hex req →
        t2.tag = normalize_tag req.tag →
        some t2.uuid ≠ lookupUser db user_id → strLe t.uuid t2.uuid = true) ∧
      get_music_with_enhanced_prompt env db user_id req =
        { result := .ok (response t true), db := update_user env db user_id t.uuid,
          genCalls := [], uploads := [] } ∧
      lookupUser (get_music_with_enhanced_prompt env db user_id req).db user_id
        = some t.uuid := by
  obtain ⟨t0, ht0mem, ht0ck, ht0tg, ht0ne⟩ := hex
  have ht0cts : t0 ∈ cachedTracks env db (requestFingerprint env.md5hex req)
      (normalize_tag req.tag) :=
    (mem_cachedTracks hC t0).mpr ⟨ht0mem, ht0ck, ht0tg⟩
  have hsome : ((cachedTracks env db (requestFingerprint env.md5hex req)
      (normalize_tag req.tag)).find?
      (fun t => some t.uuid != lookupUser db user_id)).isSome = true := by
    rw [List.find?_isSome]
    refine ⟨t0, ht0cts, ?_⟩
    rw [bne_iff_ne]
    exact ht0ne
  obtain ⟨t, hfind⟩ := Option.isSome_iff_exists.mp hsome
  obtain ⟨htp, htmem, htmin⟩ :=
    find_sorted_min trackLe_refl
      (pairwise_cachedTracks env db (requestFingerprint env.md5hex req)
        (normalize_tag req.tag)) hfind
  obtain ⟨htmem2, htck, httg⟩ := (mem_cachedTracks hC t).mp htmem
  have htne : some t.uuid ≠ lookupUser db user_id := by
    rw [← bne_iff_ne]
    exact htp
  have hif : (if env.userLookupOk = true then lookupUser db user_id else none)
      = lookupUser db user_id := by
    rw [hU]
    simp
  have hserve : get_music_with_enhanced_prompt env db user_id req =
      { result := .ok (response t true), db := update_user env db user_id t.uuid,
        genCalls := [], uploads := [] } := by
    simp only [get_music_with_enhanced_prompt]
    rw [hif, hfind]
  refine ⟨t, htmem2, htck, httg, htne, ?_, hserve, ?_⟩
  · intro t2 ht2mem ht2ck ht2tg ht2ne
    have ht2cts : t2 ∈ cachedTracks env db (requestFingerprint env.md5hex req)
        (normalize_tag req.tag) :=
      (mem_cachedTracks hC t2).mpr ⟨ht2mem, ht2ck, ht2tg⟩
    refine htmin t2 ht2cts ?_
    rw [bne_iff_ne]
    exact ht2ne
  · rw [hserve]
    exact lookupUser_update_user hW db user_id t.uuid

/-- Membership in the sequential query's result set is membership in the
ledger with the tag and past the cursor. -/
theorem mem_seqTracks (db : DB) (tg : String) (last : Option String) (t : Track) :
    t ∈ sortLe trackLe ((db.music.filter (fun x => x.tag == tg)).filter (afterCursor last)) ↔
      t ∈ db.music ∧ t.tag = tg ∧ afterCursor last t = true := by
  rw [(sortLe_perm trackLe _).mem_iff]
  simp only [List.mem_filter, beq_iff_eq]
  tauto

theorem contains_iff {l : List String} {u : String} : l.contains u = true ↔ u ∈ l :=
  List.elem_iff

/-- Except the failed exact phase, nothing is excluded by the sequential
phase that the claim would keep: a uuid is excluded iff some matching
ledger row carries it. -/
theorem mem_excluded {env : Env} {db : DB} {ck tg : String}
    (hC : env.cacheLookupOk = true) (u : String) :
    u ∈ (cachedTracks env db ck tg).map (fun t => t.uuid) ↔
      ∃ t2 ∈ db.music, t2.cache_key = ck ∧ t2.tag = tg ∧ t2.uuid = u := by
  rw [List.mem_map]
  constructor
  · rintro ⟨t2, ht2, rfl⟩
    obtain ⟨hm, hck, htg⟩ := (mem_cachedTracks hC t2).mp ht2
    exact ⟨t2, hm, hck, htg, rfl⟩
  · rintro ⟨t2, hm, hck, htg, hu⟩
    exact ⟨t2, (mem_cachedTracks hC t2).mpr ⟨hm, hck, htg⟩, hu⟩

/-- C2: whenever the exact-fingerprint phase yields nothing (every
matching asset carries the cursor's uuid), yet the category holds an asset
past the cursor whose uuid no matching asset carries, the flow serves the
first such asset in ascending uuid order, advances the cursor to it, and
makes no Lyria call and no upload. -/
theorem c2_sequential_fallback
    (env : Env) (db : DB) (user_id : String) (req : Request)
    (hU : env.userLookupOk = true) (hC : env.cacheLookupOk = true)
    (hS : env.seqLookupOk = true) (hW : env.updateOk = true)
    (hnone : ∀ t ∈ db.music,
      t.cache_key = requestFingerprint env.md5hex req →
      t.tag = normalize_tag req.tag → some t.uuid = lookupUser db user_id)
    (hex : ∃ t ∈ db.music,
      t.tag = normalize_tag req.tag ∧
      afterCursor (lookupUser db user_id) t = true ∧
      (∀ t2 ∈ db.music,
        t2.cache_key = requestFingerprint env.md5hex req →
        t2.tag = normalize_tag req.tag → t2.uuid ≠ t.uuid)) :
    ∃ t ∈ db.music,
      t.tag = normalize_tag req.tag ∧
      afterCursor (lookupUser db user_id) t = true ∧
      (∀ t2 ∈ db.music,
        t2.cache_key = requestFingerprint env.md5hex req →
        t2.tag = normalize_tag req.tag → t2.uuid ≠ t.uuid) ∧
      (∀ t2 ∈ db.music,
        t2.tag = normalize_tag req.tag →
        afterCursor (lookupUser db user_id) t2 = true →
        (∀ t3 ∈ db.music,
          t3.cache_key = requestFingerprint env.md5hex req →
          t3.tag = normalize_tag req.tag → t3.uuid ≠ t2.uuid) →
        strLe t.uuid t2.uuid = true) ∧
      get_music_with_enhanced_prompt env db user_id req =
        { result := .ok (response t true), db := update_user env db user_id t.uuid,
          genCalls := [], uploads := [] } ∧
      lookupUser (get_music_with_enhanced_prompt env db user_id req).db user_id
        = some t.uuid := by
  have hfind1 : ((cachedTracks env db (requestFingerprint env.md5hex req)
      (normalize_tag req.tag)).find?
      (fun t => some t.uuid != lookupUser db user_id)) = none := by
    rw [List.find?_eq_none]
    intro x hx
    obtain ⟨hm, hck, htg⟩ := (mem_cachedTracks hC x).mp hx
    rw [bne_iff_ne]
    intro hne
    exact hne (hnone x hm hck htg)
  obtain ⟨t0, ht0mem, ht0tg, ht0after, ht0excl⟩ := hex
  have ht0seq : t0 ∈ sortLe trackLe
      ((db.music.filter (fun x => x.tag == normalize_tag req.tag)).filter
        (afterCursor (lookupUser db user_id))) :=
    (mem_seqTracks db _ _ t0).mpr ⟨ht0mem, ht0tg, ht0after⟩
  have ht0p : (!((cachedTracks env db (requestFingerprint env.md5hex req)
      (normalize_tag req.tag)).map (fun t => t.uuid)).contains t0.uuid) = true := by
    rw [Bool.not_eq_true', ← Bool.not_eq_true]
    intro hcont
    obtain ⟨t2, hm, hck, htg, hu⟩ := (mem_excluded hC t0.uuid).mp (contains_iff.mp hcont)
    exact ht0excl t2 hm hck htg hu
  have hsome : ((sortLe trackLe
      ((db.music.filter (fun x => x.tag == normalize_tag req.tag)).filter
        (afterCursor (lookupUser db user_id)))).find?
      (fun t => !((cachedTracks env db (requestFingerprint env.md5hex req)
        (normalize_tag req.tag)).map (fun t => t.uuid)).contains t.uuid)).isSome = true := by
    rw [List.find?_isSome]
    exact ⟨t0, ht0seq, ht0p⟩
  obtain ⟨t, hfind2⟩ := Option.isSome_iff_exists.mp hsome
  obtain ⟨htp, htmem, htmin⟩ :=
    find_sorted_min trackLe_refl
      (sortLe_pairwise trackLe trackLe_total trackLe_trans _) hfind2
  obtain ⟨htmem2, httg, htafter⟩ := (mem_seqTracks db _ _ t).mp htmem
  have htexcl : ∀ t2 ∈ db.music,
      t2.cache_key = requestFingerprint env.md5hex req →
      t2.tag = normalize_tag req.tag → t2.uuid ≠ t.uuid := by
    intro t2 hm hck htg hu
    rw [Bool.not_eq_true'] at htp
    have : t.uuid ∈ (cachedTracks env db (requestFingerprint env.md5hex req)
        (normalize_tag req.tag)).map (fun t => t.uuid) :=
      (mem_excluded hC t.uuid).mpr ⟨t2, hm, hck, htg, hu⟩
    rw [← contains_iff] at this
    rw [this] at htp
    exact Bool.noConfusion htp
  have hif : (if env.userLookupOk = true then lookupUser db user_id else none)
      = lookupUser db user_id := by
    rw [hU]
    simp
  have hseq : get_next_by_tag env db user_id (normalize_tag req.tag)
      ((cachedTracks env db (requestFingerprint env.md5hex req)
        (normalize_tag req.tag)).map (fun t => t.uuid)) (lookupUser db user_id)
      = (some t, update_user env db user_id t.uuid) := by
    unfold get_next_by_tag
    rw [hS]
    simp only [if_true]
    rw [hfind2]
  have hserve : get_music_with_enhanced_prompt env db user_id req =
      { result := .ok (response t true), db := update_user env db user_id t.uuid,
        genCalls := [], uploads := [] } := by
    simp only [get_music_with_enhanced_prompt]
    rw [hif, hfind1, hseq]
  refine ⟨t, htmem2, httg, htafter, htexcl, ?_, hserve, ?_⟩
  · intro t2 hm htg hafter hexcl
    have ht2seq : t2 ∈ sortLe trackLe
        ((db.music.filter (fun x => x.tag == normalize_tag req.tag)).filter
          (afterCursor (lookupUser db user_id))) :=
      (mem_seqTracks db _ _ t2).mpr ⟨hm, htg, hafter⟩
    refine htmin t2 ht2seq ?_
    rw [Bool.not_eq_true', ← Bool.not_eq_true]
    intro hcont
    obtain ⟨t3, hm3, hck3, htg3, hu3⟩ := (mem_excluded hC t2.uuid).mp (contains_iff.mp hcont)
    exact hexcl t3 hm3 hck3 htg3 hu3
  · rw [hserve]
    exact lookupUser_update_user hW db user_id t.uuid

/-- Whenever both selection phases come up empty (every matching asset
carries the cursor's uuid and no category asset lies past the cursor), the
flow reduces to the generation path with the request's rendered arguments
and fingerprint. -/
theorem serve_generation_branch
    (env : Env) (db : DB) (user_id : String) (req : Request)
    (hU : env.userLookupOk = true) (hC : env.cacheLookupOk = true)
    (hS : env.seqLookupOk = true)
    (hnone1 : ∀ t ∈ db.music,
      t.cache_key = requestFingerprint env.md5hex req →
      t.tag = normalize_tag req.tag → some t.uuid = lookupUser db user_id)
    (hnone2 : ∀ t ∈ db.music, t.tag = normalize_tag req.tag →
      afterCursor (lookupUser db user_id) t = false) :
    get_music_with_enhanced_prompt env db user_id req =
      generate_new env db user_id req.prompt (normalize_tag req.tag) req.duration
        (pyOrEmpty req.music_type) (pyOrEmpty req.mood) (pyOrEmpty req.instruments)
        (requestFingerprint env.md5hex req) := by
  have hfind1 : ((cachedTracks env db (requestFingerprint env.md5hex req)
      (normalize_tag req.tag)).find?
      (fun t => some t.uuid != lookupUser db user_id)) = none := by
    rw [List.find?_eq_none]
    intro x hx
    obtain ⟨hm, hck, htg⟩ := (mem_cachedTracks hC x).mp hx
    rw [bne_iff_ne]
    intro hne
    exact hne (hnone1 x hm hck htg)
  have hempty : (db.music.filter (fun x => x.tag == normalize_tag req.tag)).filter
      (afterCursor (lookupUser db user_id)) = [] := by
    rw [List.filter_eq_nil_iff]
    intro x hx
    obtain ⟨hm, htg⟩ := List.mem_filter.mp hx
    rw [hnone2 x hm (beq_iff_eq.mp htg)]
    simp
  have hseqnone : get_next_by_tag env db user_id (normalize_tag req.tag)
      ((cachedTracks env db (requestFingerprint env.md5hex req)
        (normalize_tag req.tag)).map (fun t => t.uuid)) (lookupUser db user_id)
      = (none, db) := by
    unfold get_next_by_tag
    rw [hS]
    simp only [if_true]
    rw [hempty]
    rfl
  have hif : (if env.userLookupOk = true then lookupUser db user_id else none)
      = lookupUser db user_id := by
    rw [hU]
    simp
  simp only [get_music_with_enhanced_prompt]
  rw [hif, hfind1, hseqnone]

/-- C3: on a full cache miss (both phases empty, for example an empty
ledger) with a successful generation, upload and insert, the flow makes
exactly one Lyria call carrying the rendered prompt, the tag and the
duration, one upload of the returned bytes at tag/uuid.wav, appends
exactly one ledger row carrying the request's fingerprint, advances the
user's cursor to the minted uuid, and returns that track with
cached = false. -/
theorem c3_generation_path
    (env : Env) (db : DB) (user_id : String) (req : Request) (audio : List Nat)
    (hU : env.userLookupOk = true) (hC : env.cacheLookupOk = true)
    (hS : env.seqLookupOk = true) (hW : env.updateOk = true) (hI : env.insertOk = true)
    (hgen : env.genResult = .ok audio) (hup : env.uploadErr = none)
    (hnone1 : ∀ t ∈ db.music,
      t.cache_key = requestFingerprint env.md5hex req →
      t.tag = normalize_tag req.tag → some t.uuid = lookupUser db user_id)
    (hnone2 : ∀ t ∈ db.music, t.tag = normalize_tag req.tag →
      afterCursor (lookupUser db user_id) t = false) :
    get_music_with_enhanced_prompt env db user_id req =
      { result := .ok
          { uuid := env.newUuid,
            title := pyTitle (normalize_tag req.tag) ++ " Track",
            url := env.publicUrl (normalize_tag req.tag ++ "/" ++ env.newUuid ++ ".wav"),
            cached := false },
        db :=
          { music := db.music ++
              [{ uuid := env.newUuid,
                 title := pyTitle (normalize_tag req.tag) ++ " Track",
                 tag := normalize_tag req.tag,
                 supabase_url :=
                   env.publicUrl (normalize_tag req.tag ++ "/" ++ env.newUuid ++ ".wav"),
                 cache_key := requestFingerprint env.md5hex req }],
            music_users := upsertRows db.music_users user_id env.newUuid },
        genCalls := [(enhance_prompt req.prompt (pyOrEmpty req.music_type)
          (pyOrEmpty req.mood) (pyOrEmpty req.instruments),
          normalize_tag req.tag, req.duration)],
        uploads := [(normalize_tag req.tag ++ "/" ++ env.newUuid ++ ".wav", audio)] } ∧
    lookupUser (get_music_with_enhanced_prompt env db user_id req).db user_id
      = some env.newUuid := by
  have hbranch := serve_generation_branch env db user_id req hU hC hS hnone1 hnone2
  have hgenrun : generate_new env db user_id req.prompt (normalize_tag req.tag) req.duration
      (pyOrEmpty req.music_type) (pyOrEmpty req.mood) (pyOrEmpty req.instruments)
      (requestFingerprint env.md5hex req) =
      { result := .ok
          { uuid := env.newUuid,
            title := pyTitle (normalize_tag req.tag) ++ " Track",
            url := env.publicUrl (normalize_tag req.tag ++ "/" ++ env.newUuid ++ ".wav"),
            cached := false },
        db :=
          { music := db.music ++
              [{ uuid := env.newUuid,
                 title := pyTitle (normalize_tag req.tag) ++ " Track",
                 tag := normalize_tag req.tag,
                 supabase_url :=
                   env.publicUrl (normalize_tag req.tag ++ "/" ++ env.newUuid ++ ".wav"),
                 cache_key := requestFingerprint env.md5hex req }],
            music_users := upsertRows db.music_users user_id env.newUuid },
        genCalls := [(enhance_prompt req.prompt (pyOrEmpty req.music_type)
          (pyOrEmpty req.mood) (pyOrEmpty req.instruments),
          normalize_tag req.tag, req.duration)],
        uploads := [(normalize_tag req.tag ++ "/" ++ env.newUuid ++ ".wav", audio)] } := by
    unfold generate_new
    rw [hgen, hup]
    simp only [hI, if_true, update_user, hW, response]
  refine ⟨hbranch.trans hgenrun, ?_⟩
  rw [hbranch, hgenrun]
  unfold lookupUser
  rw [find_upsertRows]
  rfl

/-- C4: on the generation path (both selection phases empty), a Lyria
failure or a storage-upload failure raises outward and persists nothing:
the whole store — ledger rows and the user's cursor alike — is exactly as
before the request. -/
theorem c4_generation_failure_atomic
    (env : Env) (db : DB) (user_id : String) (req : Request)
    (hU : env.userLookupOk = true) (hC : env.cacheLookupOk = true)
    (hS : env.seqLookupOk = true)
    (hnone1 : ∀ t ∈ db.music,
      t.cache_key = requestFingerprint env.md5hex req →
      t.tag = normalize_tag req.tag → some t.uuid = lookupUser db user_id)
    (hnone2 : ∀ t ∈ db.music, t.tag = normalize_tag req.tag →
      afterCursor (lookupUser db user_id) t = false)
    (hfail : (∃ msg, env.genResult = .error msg) ∨ env.uploadErr ≠ none) :
    (∃ e, (get_music_with_enhanced_prompt env db user_id req).result = .error e) ∧
    (get_music_with_enhanced_prompt env db user_id req).db = db ∧
    (get_music_with_enhanced_prompt env db user_id req).db.music = db.music ∧
    lookupUser (get_music_with_enhanced_prompt env db user_id req).db user_id
      = lookupUser db user_id := by
  have hbranch := serve_generation_branch env db user_id req hU hC hS hnone1 hnone2
  rcases hfail with ⟨msg, hgen⟩ | hup
  · have hrun : generate_new env db user_id req.prompt (normalize_tag req.tag) req.duration
        (pyOrEmpty req.music_type) (pyOrEmpty req.mood) (pyOrEmpty req.instruments)
        (requestFingerprint env.md5hex req) =
        { result := .error ("Music generation error: " ++ msg), db := db,
          genCalls := [(enhance_prompt req.prompt (pyOrEmpty req.music_type)
            (pyOrEmpty req.mood) (pyOrEmpty req.instruments),
            normalize_tag req.tag, req.duration)],
          uploads := [] } := by
      unfold generate_new
      rw [hgen]
    rw [hbranch, hrun]
    exact ⟨⟨"Music generation error: " ++ msg, rfl⟩, rfl, rfl, rfl⟩
  · rcases hgenCase : env.genResult with msg | audio
    · have hrun : generate_new env db user_id req.prompt (normalize_tag req.tag) req.duration
          (pyOrEmpty req.music_type) (pyOrEmpty req.mood) (pyOrEmpty req.instruments)
          (requestFingerprint env.md5hex req) =
          { result := .error ("Music generation error: " ++ msg), db := db,
            genCalls := [(enhance_prompt req.prompt (pyOrEmpty req.music_type)
              (pyOrEmpty req.mood) (pyOrEmpty req.instruments),
              normalize_tag req.tag, req.duration)],
            uploads := [] } := by
        unfold generate_new
        rw [hgenCase]
      rw [hbranch, hrun]
      exact ⟨⟨"Music generation error: " ++ msg, rfl⟩, rfl, rfl, rfl⟩
    · obtain ⟨uerr, huperr⟩ := Option.ne_none_iff_exists'.mp hup
      have hrun : generate_new env db user_id req.prompt (normalize_tag req.tag) req.duration
          (pyOrEmpty req.music_type) (pyOrEmpty req.mood) (pyOrEmpty req.instruments)
          (requestFingerprint env.md5hex req) =
          { result := .error ("Music generation error: Upload failed: " ++ uerr), db := db,
            genCalls := [(enhance_prompt req.prompt (pyOrEmpty req.music_type)
              (pyOrEmpty req.mood) (pyOrEmpty req.instruments),
              normalize_tag req.tag, req.duration)],
            uploads := [(normalize_tag req.tag ++ "/" ++ env.newUuid ++ ".wav", audio)] } := by
        unfold generate_new
        rw [hgenCase, huperr]
      rw [hbranch, hrun]
      exact ⟨⟨"Music generation error: Upload failed: " ++ uerr, rfl⟩, rfl, rfl, rfl⟩

-- -----------------------------------------
-- Concrete fixtures for witnesses and counterexamples
-- -----------------------------------------

/-- Environment of a fully healthy request whose digest lands on "F1". -/
def envFix : Env :=
  { md5hex := (fun _ => "F1"), publicUrl := (fun p => "https://store/" ++ p),
    userLookupOk := true, cacheLookupOk := true, seqLookupOk := true,
    updateOk := true, insertOk := true, insertErrMsg := "insert failed",
    genResult := .ok [1, 2, 3], uploadErr := none, newUuid := "1700000001-abc123" }

/-- Ledger row A1 of the spec's scenarios. -/
def trackA1 : Track :=
  { uuid := "1700000000-aaa111", title := "Meditation Track", tag := "meditation",
    supabase_url := "https://store/meditation/1700000000-aaa111.wav", cache_key := "F1" }

/-- Request of the spec's scenarios: category "meditation", duration 90. -/
def reqFix : Request :=
  { prompt := "calm rain", tag := "meditation", duration := 90,
    is_vip := false, music_type := none, instruments := none, mood := none }

/-- C5 counterexample: with the Relational Store unreachable for both
selection queries (both lookups raise) and a nonempty ledger, the request
does not fail with a lookup error: the errors are swallowed, the flow
falls through and invokes Lyria once, and the request succeeds with a
freshly generated track — refuting the claim that such a request fails
rather than reaching the Generator. -/
theorem c5_counterexample :
    (get_music_with_enhanced_prompt
        { envFix with cacheLookupOk := false, seqLookupOk := false }
        ⟨[trackA1], []⟩ "U2" reqFix).genCalls.length = 1 ∧
    (get_music_with_enhanced_prompt
        { envFix with cacheLookupOk := false, seqLookupOk := false }
        ⟨[trackA1], []⟩ "U2" reqFix).result =
      .ok ⟨"1700000001-abc123", "Meditation Track",
        "https://store/meditation/1700000001-abc123.wav", false⟩ := by
  constructor
  · decide
  · decide

/-- C5 amended: when the Relational Store raises during candidate
selection (both the cached-tracks lookup and the sequential lookup), the
code catches and swallows the errors, treats the lookups as empty, and
falls through to the generation path — exactly one Lyria invocation is
attempted and no lookup error reaches the caller. -/
theorem c5_amended_lookup_failure_falls_through
    (env : Env) (db : DB) (user_id : String) (req : Request)
    (hC : env.cacheLookupOk = false) (hS : env.seqLookupOk = false) :
    get_music_with_enhanced_prompt env db user_id req =
      generate_new env db user_id req.prompt (normalize_tag req.tag) req.duration
        (pyOrEmpty req.music_type) (pyOrEmpty req.mood) (pyOrEmpty req.instruments)
        (requestFingerprint env.md5hex req) ∧
    (get_music_with_enhanced_prompt env db user_id req).genCalls.length = 1 := by
  have hcts : cachedTracks env db (requestFingerprint env.md5hex req)
      (normalize_tag req.tag) = [] := by
    unfold cachedTracks
    rw [hC]
    rfl
  have hseqnone : get_next_by_tag env db user_id (normalize_tag req.tag)
      (([] : List Track).map (fun t => t.uuid))
      (if env.userLookupOk = true then lookupUser db user_id else none)
      = (none, db) := by
    unfold get_next_by_tag
    rw [hS]
    rfl
  have hbranch : get_music_with_enhanced_prompt env db user_id req =
      generate_new env db user_id req.prompt (normalize_tag req.tag) req.duration
        (pyOrEmpty req.music_type) (pyOrEmpty req.mood) (pyOrEmpty req.instruments)
        (requestFingerprint env.md5hex req) := by
    simp only [get_music_with_enhanced_prompt]
    rw [hcts]
    rw [show (([] : List Track).find? (fun t => some t.uuid !=
      (if env.userLookupOk = true then lookupUser db user_id else none))) = none from rfl]
    rw [hseqnone]
  refine ⟨hbranch, ?_⟩
  rw [hbranch]
  unfold generate_new
  rcases env.genResult with msg | audio
  · rfl
  · rcases env.uploadErr with _ | uerr
    · by_cases hI : env.insertOk = true
      · simp only [hI, if_true]
        rfl
      · rw [Bool.not_eq_true] at hI
        simp only [hI, Bool.false_eq_true, if_false]
        rfl
    · rfl

/-- C6 counterexample: with the cursor upsert failing (the "music_users"
upsert raises) and a cache hit available, the serve still reports success
and the cursor table is left without any row for the user — refuting the
claim that a cursor-advance failure surfaces to the caller. -/
theorem c6_counterexample :
    (get_music_with_enhanced_prompt { envFix with updateOk := false }
        ⟨[trackA1], []⟩ "U2" reqFix).result =
      .ok ⟨"1700000000-aaa111", "Meditation Track",
        "https://store/meditation/1700000000-aaa111.wav", true⟩ ∧
    (get_music_with_enhanced_prompt { envFix with updateOk := false }
        ⟨[trackA1], []⟩ "U2" reqFix).db.music_users = [] := by
  constructor
  · decide
  · decide

/-- C6 amended: `_update_user` catches and merely logs a failed cursor
upsert, so when the upsert raises during an exact-phase cache hit the
serve still returns that track with cached = true and the store — the
cursor table included — is unchanged: the failure never surfaces and
last_received_uuid is not updated. -/
theorem c6_amended_cursor_failure_swallowed
    (env : Env) (db : DB) (user_id : String) (req : Request)
    (hW : env.updateOk = false)
    (hU : env.userLookupOk = true) (hC : env.cacheLookupOk = true)
    (hex : ∃ t ∈ db.music,
      t.cache_key = requestFingerprint env.md5hex req ∧
      t.tag = normalize_tag req.tag ∧
      some t.uuid ≠ lookupUser db user_id) :
    ∃ t ∈ db.music,
      get_music_with_enhanced_prompt env db user_id req =
        { result := .ok (response t true), db := db, genCalls := [], uploads := [] } := by
  obtain ⟨t0, ht0mem, ht0ck, ht0tg, ht0ne⟩ := hex
  have ht0cts : t0 ∈ cachedTracks env db (requestFingerprint env.md5hex req)
      (normalize_tag req.tag) :=
    (mem_cachedTracks hC t0).mpr ⟨ht0mem, ht0ck, ht0tg⟩
  have hsome : ((cachedTracks env db (requestFingerprint env.md5hex req)
      (normalize_tag req.tag)).find?
      (fun t => some t.uuid != lookupUser db user_id)).isSome = true := by
    rw [List.find?_isSome]
    refine ⟨t0, ht0cts, ?_⟩
    rw [bne_iff_ne]
    exact ht0ne
  obtain ⟨t, hfind⟩ := Option.isSome_iff_exists.mp hsome
  have htmem := List.mem_of_find?_eq_some hfind
  obtain ⟨htmem2, _, _⟩ := (mem_cachedTracks hC t).mp htmem
  have hif : (if env.userLookupOk = true then lookupUser db user_id else none)
      = lookupUser db user_id := by
    rw [hU]
    simp
  refine ⟨t, htmem2, ?_⟩
  simp only [get_music_with_enhanced_prompt]
  rw [hif, hfind]
  unfold update_user
  rw [hW]
  rfl

/-- C1 witness: the spec's Scenario B — the ledger holds A1, the fresh
user U2 requests the same category and fingerprint, and the exact phase
serves A1 with the cursor advanced and no generation. -/
theorem c1_witness :
    ∃ t ∈ (DB.mk [trackA1] []).music,
      t.cache_key = requestFingerprint envFix.md5hex reqFix ∧
      t.tag = normalize_tag reqFix.tag ∧
      some t.uuid ≠ lookupUser ⟨[trackA1], []⟩ "U2" ∧
      (∀ t2 ∈ (DB.mk [trackA1] []).music,
        t2.cache_key = requestFingerprint envFix.md5hex reqFix →
        t2.tag = normalize_tag reqFix.tag →
        some t2.uuid ≠ lookupUser ⟨[trackA1], []⟩ "U2" → strLe t.uuid t2.uuid = true) ∧
      get_music_with_enhanced_prompt envFix ⟨[trackA1], []⟩ "U2" reqFix =
        { result := .ok (response t true), db := update_user envFix ⟨[trackA1], []⟩ "U2" t.uuid,
          genCalls := [], uploads := [] } ∧
      lookupUser (get_music_with_enhanced_prompt envFix ⟨[trackA1], []⟩ "U2" reqFix).db "U2"
        = some t.uuid :=
  c1_exact_phase_serves_first_unseen envFix ⟨[trackA1], []⟩ "U2" reqFix rfl rfl rfl
    ⟨trackA1, by decide, by decide, by decide, by decide⟩

/-- C2 witness: the spec's Scenario D — a fresh user requests fingerprint
"F2" that no asset shares, and the sequential fallback serves the earliest
category asset with no generation. -/
theorem c2_witness :
    ∃ t ∈ (DB.mk [trackA1] []).music,
      t.tag = normalize_tag reqFix.tag ∧
      afterCursor (lookupUser ⟨[trackA1], []⟩ "U3") t = true ∧
      (∀ t2 ∈ (DB.mk [trackA1] []).music,
        t2.cache_key = requestFingerprint { envFix with md5hex := (fun _ => "F2") }.md5hex reqFix →
        t2.tag = normalize_tag reqFix.tag → t2.uuid ≠ t.uuid) ∧
      (∀ t2 ∈ (DB.mk [trackA1] []).music,
        t2.tag = normalize_tag reqFix.tag →
        afterCursor (lookupUser ⟨[trackA1], []⟩ "U3") t2 = true →
        (∀ t3 ∈ (DB.mk [trackA1] []).music,
          t3.cache_key = requestFingerprint { envFix with md5hex := (fun _ => "F2") }.md5hex reqFix →
          t3.tag = normalize_tag reqFix.tag → t3.uuid ≠ t2.uuid) →
        strLe t.uuid t2.uuid = true) ∧
      get_music_with_enhanced_prompt { envFix with md5hex := (fun _ => "F2") }
          ⟨[trackA1], []⟩ "U3" reqFix =
        { result := .ok (response t true),
          db := update_user { envFix with md5hex := (fun _ => "F2") } ⟨[trackA1], []⟩ "U3" t.uuid,
          genCalls := [], uploads := [] } ∧
      lookupUser (get_music_with_enhanced_prompt { envFix with md5hex := (fun _ => "F2") }
          ⟨[trackA1], []⟩ "U3" reqFix).db "U3" = some t.uuid :=
  c2_sequential_fallback { envFix with md5hex := (fun _ => "F2") } ⟨[trackA1], []⟩ "U3" reqFix
    rfl rfl rfl rfl (by decide) ⟨trackA1, by decide, by decide, by decide, by decide⟩

/-- C3 witness: the spec's Scenario A — an empty ledger, so the request
generates, uploads, appends one row carrying the fingerprint, advances the
cursor to the minted uuid and returns cached = false. -/
theorem c3_witness :
    get_music_with_enhanced_prompt envFix ⟨[], []⟩ "U1" reqFix =
      { result := .ok
          { uuid := envFix.newUuid,
            title := pyTitle (normalize_tag reqFix.tag) ++ " Track",
            url := envFix.publicUrl (normalize_tag reqFix.tag ++ "/" ++ envFix.newUuid ++ ".wav"),
            cached := false },
        db :=
          { music := ([] : List Track) ++
              [{ uuid := envFix.newUuid,
                 title := pyTitle (normalize_tag reqFix.tag) ++ " Track",
                 tag := normalize_tag reqFix.tag,
                 supabase_url :=
                   envFix.publicUrl (normalize_tag reqFix.tag ++ "/" ++ envFix.newUuid ++ ".wav"),
                 cache_key := requestFingerprint envFix.md5hex reqFix }],
            music_users := upsertRows [] "U1" envFix.newUuid },
        genCalls := [(enhance_prompt reqFix.prompt (pyOrEmpty reqFix.music_type)
          (pyOrEmpty reqFix.mood) (pyOrEmpty reqFix.instruments),
          normalize_tag reqFix.tag, reqFix.duration)],
        uploads := [(normalize_tag reqFix.tag ++ "/" ++ envFix.newUuid ++ ".wav", [1, 2, 3])] } ∧
    lookupUser (get_music_with_enhanced_prompt envFix ⟨[], []⟩ "U1" reqFix).db "U1"
      = some envFix.newUuid :=
  c3_generation_path envFix ⟨[], []⟩ "U1" reqFix [1, 2, 3] rfl rfl rfl rfl rfl rfl rfl
    (by decide) (by decide)

/-- C4 witness: a failed Lyria call on an empty ledger raises outward and
leaves both the ledger and the cursor table untouched. -/
theorem c4_witness :
    (∃ e, (get_music_with_enhanced_prompt { envFix with genResult := .error "quota" }
      ⟨[], []⟩ "U1" reqFix).result = .error e) ∧
    (get_music_with_enhanced_prompt { envFix with genResult := .error "quota" }
      ⟨[], []⟩ "U1" reqFix).db = ⟨[], []⟩ ∧
    (get_music_with_enhanced_prompt { envFix with genResult := .error "quota" }
      ⟨[], []⟩ "U1" reqFix).db.music = (DB.mk [] []).music ∧
    lookupUser (get_music_with_enhanced_prompt { envFix with genResult := .error "quota" }
      ⟨[], []⟩ "U1" reqFix).db "U1" = lookupUser ⟨[], []⟩ "U1" :=
  c4_generation_failure_atomic { envFix with genResult := .error "quota" } ⟨[], []⟩ "U1" reqFix
    rfl rfl rfl (by decide) (by decide) (Or.inl ⟨"quota", rfl⟩)

/-- C5 witness of the amended claim: both selection lookups raising sends
the concrete request down the generation path with one Lyria call. -/
theorem c5_amended_witness :
    get_music_with_enhanced_prompt { envFix with cacheLookupOk := false, seqLookupOk := false }
        ⟨[trackA1], []⟩ "U2" reqFix =
      generate_new { envFix with cacheLookupOk := false, seqLookupOk := false }
        ⟨[trackA1], []⟩ "U2" reqFix.prompt (normalize_tag reqFix.tag) reqFix.duration
        (pyOrEmpty reqFix.music_type) (pyOrEmpty reqFix.mood) (pyOrEmpty reqFix.instruments)
        (requestFingerprint
          { envFix with cacheLookupOk := false, seqLookupOk := false }.md5hex reqFix) ∧
    (get_music_with_enhanced_prompt { envFix with cacheLookupOk := false, seqLookupOk := false }
        ⟨[trackA1], []⟩ "U2" reqFix).genCalls.length = 1 :=
  c5_amended_lookup_failure_falls_through
    { envFix with cacheLookupOk := false, seqLookupOk := false }
    ⟨[trackA1], []⟩ "U2" reqFix rfl rfl

/-- C6 witness of the amended claim: with the cursor upsert failing on the
concrete cache hit, the serve still returns the track and leaves the store
unchanged. -/
theorem c6_amended_witness :
    ∃ t ∈ (DB.mk [trackA1] []).music,
      get_music_with_enhanced_prompt { envFix with updateOk := false }
          ⟨[trackA1], []⟩ "U2" reqFix =
        { result := .ok (response t true), db := ⟨[trackA1], []⟩,
          genCalls := [], uploads := [] } :=
  c6_amended_cursor_failure_swallowed { envFix with updateOk := false }
    ⟨[trackA1], []⟩ "U2" reqFix rfl rfl rfl
    ⟨trackA1, by decide, by decide, by decide, by decide⟩
